import Mathlib

/-!
# Volume lifecycle of `lepton/aws_volume.go`

A shallow embedding of `CreateVolume`, `GetAllVolumes`, `DeleteVolume`, `AttachVolume` and
`DetachVolume`, followed by the properties proved about them.

Modelling conventions.

* A Go `error` is `Option GoError`: `none` is the nil error.  A Go result pair `(v, err)` whose
  value is only read when `err == nil` is an `Except GoError _`.
* The collaborators that the file calls and does not define (`getEc2Service`, `CreateLocalVolume`,
  `Storage`, `waitSnapshotToBeReady`, `parseToAWSTags`, the EC2 client) are parameters: a run is
  determined by what each of them answers, and every theorem quantifies over all answers.  They
  read the `Config` they are handed and do not write it; the one write of the source
  (`config.CloudConfig.ImageName = localVolume.Name`) is modelled.
* Every operation returns, next to its Go results, the trace of the collaborator calls it made, in
  order, each with the error the collaborator answered.
* Pointers to structs (receiver, config, SDK inputs and outputs, elements of SDK lists) are
  modelled by the struct.  The SDK's scalar pointer fields (`*string`, `*int64`, `*time.Time`) are
  `Option`s, `none` being the nil pointer: a dereference of `none` is a run-time panic, which
  `GetAllVolumes` reports as the result `none`.
-/

namespace Lepton

/-! ## Go values -/

/-- A non-nil Go `error` value, identified by its message. -/
structure GoError where
  msg : String
deriving DecidableEq, Repr

/-- The call `fmt.Errorf(pre + "%v", err)`: a new error whose message is the constant text `pre`
followed by the message of `err`. -/
def Errorf (pre : String) (err : GoError) : GoError :=
  ⟨pre ++ err.msg⟩

/-- The value of `strings.Join(elems, sep)`: the elements, with `sep` between consecutive ones. -/
def stringsJoin : List String → String → String
  | [], _ => ""
  | [s], _ => s
  | s :: t :: rest, sep => s ++ sep ++ stringsJoin (t :: rest) sep

/-- The value of `strconv.Itoa(int(n))` for an `int64` value `n` (`int` being 64 bits wide). -/
def Itoa (n : Int) : String :=
  toString n

/-- A `time.Time`, kept as the text its `String()` method renders. -/
structure GoTime where
  text : String
deriving DecidableEq, Repr

/-! ## Types of the package that the file uses -/

/-- The record `NanosVolume`; its zero value has every field empty. -/
structure NanosVolume where
  ID : String := ""
  Name : String := ""
  Status : String := ""
  Size : String := ""
  Path : String := ""
  CreatedAt : String := ""
  AttachedTo : String := ""
deriving DecidableEq, Repr

/-- A user-supplied tag of the run configuration. -/
structure Tag where
  Key : String
  Value : String
deriving DecidableEq, Repr

/-- The fields of `config.CloudConfig` that the file reads or writes. -/
structure CloudConfig where
  ImageName : String
  BucketName : String
  Zone : String
deriving DecidableEq, Repr

/-- The fields of `config.RunConfig` that the file reads. -/
structure RunConfig where
  Tags : List Tag
deriving DecidableEq, Repr

/-- The configuration `Config`. -/
structure Config where
  CloudConfig : CloudConfig
  RunConfig : RunConfig
deriving DecidableEq, Repr

/-! ## Types of the EC2 SDK -/

namespace ec2

structure UserBucket where
  S3Bucket : Option String
  S3Key : Option String
deriving DecidableEq, Repr

structure SnapshotDiskContainer where
  Description : Option String
  Format : Option String
  UserBucket : UserBucket
deriving DecidableEq, Repr

structure ImportSnapshotInput where
  Description : Option String
  DiskContainer : SnapshotDiskContainer
deriving DecidableEq, Repr

structure ImportSnapshotOutput where
  ImportTaskId : Option String
deriving DecidableEq, Repr

structure Tag where
  Key : Option String
  Value : Option String
deriving DecidableEq, Repr

structure TagSpecification where
  ResourceType : Option String
  Tags : List Tag
deriving DecidableEq, Repr

structure CreateVolumeInput where
  AvailabilityZone : Option String
  SnapshotId : Option String
  TagSpecifications : List TagSpecification
deriving DecidableEq, Repr

structure VolumeAttachment where
  InstanceId : Option String
deriving DecidableEq, Repr

structure Volume where
  VolumeId : Option String
  State : Option String
  Size : Option Int
  CreateTime : Option GoTime
  Tags : List Tag
  Attachments : List VolumeAttachment
deriving DecidableEq, Repr

structure DescribeVolumesInput where
deriving DecidableEq, Repr

structure DescribeVolumesOutput where
  Volumes : List Volume
deriving DecidableEq, Repr

structure DeleteVolumeInput where
  VolumeId : Option String
deriving DecidableEq, Repr

structure AttachVolumeInput where
  Device : Option String
  InstanceId : Option String
  VolumeId : Option String
deriving DecidableEq, Repr

structure DetachVolumeInput where
  Device : Option String
  InstanceId : Option String
  VolumeId : Option String
deriving DecidableEq, Repr

/-- The EC2 client `*ec2.EC2`: what each request of the file is answered with. -/
structure EC2 where
  ImportSnapshot : ImportSnapshotInput → Except GoError ImportSnapshotOutput
  CreateVolume : CreateVolumeInput → Except GoError Volume
  DescribeVolumes : DescribeVolumesInput → Except GoError DescribeVolumesOutput
  DeleteVolume : DeleteVolumeInput → Option GoError
  AttachVolume : AttachVolumeInput → Option GoError
  DetachVolume : DetachVolumeInput → Option GoError

end ec2

/-! ## Collaborators -/

/-- The object store `a.Storage`. -/
structure Storage where
  CopyToBucket : Config → String → Option GoError
  DeleteFromBucket : Config → String → Option GoError

/-- The receiver `*AWS`, with the two methods of it that the file calls and does not define. -/
structure AWS where
  Storage : Storage
  getEc2Service : Config → Except GoError ec2.EC2
  waitSnapshotToBeReady : Config → Option String → Except GoError (Option String)

/-- Modelled from the spec: the function `parseToAWSTags`, called at line 71, is not in the source
file, and the call `tags, _ := parseToAWSTags(config.RunConfig.Tags, name)` shows only that it
answers the tags and a second result that is discarded.  The spec gives it the contract
`ParseTags(rawTagList, volumeName) → tagSet, error`: an answer is the tag set together with an
error. -/
abbrev ParseToAWSTags : Type :=
  List Tag → String → List ec2.Tag × Option GoError

/-- The package-level functions that the file calls and does not define. -/
structure Pkg where
  CreateLocalVolume : Config → String → String → String → String → Except GoError NanosVolume
  parseToAWSTags : ParseToAWSTags

/-! ## Traces -/

/-- A collaborator call, with its arguments. -/
inductive Call where
  | getEc2Service (config : Config)
  | CreateLocalVolume (config : Config) (name data size provider : String)
  | CopyToBucket (config : Config) (path : String)
  | ImportSnapshot (input : ec2.ImportSnapshotInput)
  | waitSnapshotToBeReady (config : Config) (taskId : Option String)
  | DeleteFromBucket (config : Config) (key : String)
  | parseToAWSTags (tags : List Tag) (name : String)
  | CreateVolume (input : ec2.CreateVolumeInput)
  | DescribeVolumes (input : ec2.DescribeVolumesInput)
  | DeleteVolume (input : ec2.DeleteVolumeInput)
  | AttachVolume (input : ec2.AttachVolumeInput)
  | DetachVolume (input : ec2.DetachVolumeInput)
deriving DecidableEq, Repr

/-- One entry of a trace: the call and the error it was answered with (`none`: it succeeded). -/
structure Event where
  call : Call
  err : Option GoError
deriving DecidableEq, Repr

/-- The error of an `Except` answer, `none` when it is a value. -/
def errOf {α : Type} : Except GoError α → Option GoError
  | .error e => some e
  | .ok _ => none

/-- The result of an operation together with the trace of its collaborator calls. -/
structure Run (α : Type) where
  trace : List Event
  ret : α

/-! ## The operations -/

/-- The method `CreateVolume`: returns the pair `(vol, err)` of the source. -/
def CreateVolume (a : AWS) (pkg : Pkg) (config : Config) (name data size provider : String) :
    Run (NanosVolume × Option GoError) :=
  let vol : NanosVolume := {}
  let r1 := a.getEc2Service config
  let t := [Event.mk (.getEc2Service config) (errOf r1)]
  match r1 with
  | .error err => ⟨t, vol, some err⟩
  | .ok compute =>
  let r2 := pkg.CreateLocalVolume config name data size provider
  let t := t ++ [⟨.CreateLocalVolume config name data size provider, errOf r2⟩]
  match r2 with
  | .error err => ⟨t, vol, some (Errorf "create local volume: " err)⟩
  | .ok localVolume =>
  let config : Config :=
    { config with CloudConfig := { config.CloudConfig with ImageName := localVolume.Name } }
  let r3 := a.Storage.CopyToBucket config localVolume.Path
  let t := t ++ [⟨.CopyToBucket config localVolume.Path, r3⟩]
  match r3 with
  | some err => ⟨t, vol, some (Errorf "copy volume archive to aws bucket: " err)⟩
  | none =>
  let bucket := config.CloudConfig.BucketName
  let key := localVolume.Name
  let input : ec2.ImportSnapshotInput :=
    { Description := some "name"
      DiskContainer :=
        { Description := some "snapshot imported"
          Format := some "raw"
          UserBucket := { S3Bucket := some bucket, S3Key := some key } } }
  let r4 := compute.ImportSnapshot input
  let t := t ++ [⟨.ImportSnapshot input, errOf r4⟩]
  match r4 with
  | .error err => ⟨t, vol, some (Errorf "import snapshot: " err)⟩
  | .ok res =>
  let r5 := a.waitSnapshotToBeReady config res.ImportTaskId
  let t := t ++ [⟨.waitSnapshotToBeReady config res.ImportTaskId, errOf r5⟩]
  match r5 with
  | .error err => ⟨t, vol, some err⟩
  | .ok snapshotID =>
  let r6 := a.Storage.DeleteFromBucket config key
  let t := t ++ [⟨.DeleteFromBucket config key, r6⟩]
  match r6 with
  | some err => ⟨t, vol, some err⟩
  | none =>
  let r7 := pkg.parseToAWSTags config.RunConfig.Tags name
  let t := t ++ [⟨.parseToAWSTags config.RunConfig.Tags name, r7.2⟩]
  let tags := r7.1
  let createVolumeInput : ec2.CreateVolumeInput :=
    { AvailabilityZone := some (config.CloudConfig.Zone ++ "c")
      SnapshotId := snapshotID
      TagSpecifications := [{ ResourceType := some "volume", Tags := tags }] }
  let r8 := compute.CreateVolume createVolumeInput
  let t := t ++ [⟨.CreateVolume createVolumeInput, errOf r8⟩]
  match r8 with
  | .error err => ⟨t, vol, some (Errorf "create aws volume: " err)⟩
  | .ok _ => ⟨t, vol, none⟩

/-- The inner loop over `volume.Tags`: `name` starts empty and is overwritten by the value of each
tag whose key is `"Name"`; `none` when a dereferenced `Key` or `Value` is nil. -/
def tagLoop (tags : List ec2.Tag) : Option String :=
  tags.foldlM (fun name tag => do
    let key ← tag.Key
    if key = "Name" then
      let value ← tag.Value
      pure value
    else
      pure name) ""

/-- The inner loop over `volume.Attachments`: appends every attachment's instance identifier;
`none` when a dereferenced `InstanceId` is nil. -/
def attachmentLoop (atts : List ec2.VolumeAttachment) : Option (List String) :=
  atts.foldlM (fun attachments att => do
    let instanceId ← att.InstanceId
    pure (attachments ++ [instanceId])) []

/-- The body of the loop of `GetAllVolumes` over `output.Volumes`: the record built for one
volume; `none` when a nil pointer is dereferenced. -/
def volumeRecord (volume : ec2.Volume) : Option NanosVolume := do
  let name ← tagLoop volume.Tags
  let attachments ← attachmentLoop volume.Attachments
  let volumeId ← volume.VolumeId
  let state ← volume.State
  let size ← volume.Size
  let createTime ← volume.CreateTime
  pure
    { ID := volumeId
      Name := name
      Status := state
      Size := Itoa size
      Path := ""
      CreatedAt := createTime.text
      AttachedTo := stringsJoin attachments ";" }

/-- The loop of `GetAllVolumes` over `output.Volumes`, appending one record per volume. -/
def volumeLoop (volumes : List ec2.Volume) : Option (List NanosVolume) :=
  volumes.foldlM (fun vols volume => do
    let vol ← volumeRecord volume
    pure (vols ++ [vol])) []

/-- The method `GetAllVolumes`.  The result `some (vols, err)` is the pair the source returns,
`vols = none` being the nil pointer; the result `none` is a run-time panic. -/
def GetAllVolumes (a : AWS) (config : Config) :
    Run (Option (Option (List NanosVolume) × Option GoError)) :=
  let r1 := a.getEc2Service config
  let t := [Event.mk (.getEc2Service config) (errOf r1)]
  match r1 with
  | .error err => ⟨t, some (none, some err)⟩
  | .ok compute =>
  let input : ec2.DescribeVolumesInput := {}
  let r2 := compute.DescribeVolumes input
  let t := t ++ [⟨.DescribeVolumes input, errOf r2⟩]
  match r2 with
  | .error err => ⟨t, some (none, some err)⟩
  | .ok output =>
  match volumeLoop output.Volumes with
  | none => ⟨t, none⟩
  | some vols => ⟨t, some (some vols, none)⟩

/-- The method `DeleteVolume`. -/
def DeleteVolume (a : AWS) (config : Config) (name : String) : Run (Option GoError) :=
  let r1 := a.getEc2Service config
  let t := [Event.mk (.getEc2Service config) (errOf r1)]
  match r1 with
  | .error err => ⟨t, some err⟩
  | .ok compute =>
  let input : ec2.DeleteVolumeInput := { VolumeId := some name }
  let r2 := compute.DeleteVolume input
  let t := t ++ [⟨.DeleteVolume input, r2⟩]
  match r2 with
  | some err => ⟨t, some err⟩
  | none => ⟨t, none⟩

/-- The method `AttachVolume`. -/
def AttachVolume (a : AWS) (config : Config) (image name _mount : String) : Run (Option GoError) :=
  let r1 := a.getEc2Service config
  let t := [Event.mk (.getEc2Service config) (errOf r1)]
  match r1 with
  | .error err => ⟨t, some err⟩
  | .ok compute =>
  let input : ec2.AttachVolumeInput :=
    { Device := some "/dev/sdf", InstanceId := some image, VolumeId := some name }
  let r2 := compute.AttachVolume input
  let t := t ++ [⟨.AttachVolume input, r2⟩]
  match r2 with
  | some err => ⟨t, some err⟩
  | none => ⟨t, none⟩

/-- The method `DetachVolume`. -/
def DetachVolume (a : AWS) (config : Config) (image name : String) : Run (Option GoError) :=
  let r1 := a.getEc2Service config
  let t := [Event.mk (.getEc2Service config) (errOf r1)]
  match r1 with
  | .error err => ⟨t, some err⟩
  | .ok compute =>
  let input : ec2.DetachVolumeInput :=
    { Device := some "/dev/sdf", InstanceId := some image, VolumeId := some name }
  let r2 := compute.DetachVolume input
  let t := t ++ [⟨.DetachVolume input, r2⟩]
  match r2 with
  | some err => ⟨t, some err⟩
  | none => ⟨t, none⟩

/-! ## Vocabulary of the properties -/

/-- Whether the call is `DeleteFromBucket`. -/
def Call.isDeleteFromBucket : Call → Bool
  | .DeleteFromBucket _ _ => true
  | _ => false

/-- Whether the call is the provider's `CreateVolume`. -/
def Call.isCreateVolume : Call → Bool
  | .CreateVolume _ => true
  | _ => false

/-- Whether the call is `ImportSnapshot`. -/
def Call.isImportSnapshot : Call → Bool
  | .ImportSnapshot _ => true
  | _ => false

/-- Whether the call is `waitSnapshotToBeReady`. -/
def Call.isWaitSnapshot : Call → Bool
  | .waitSnapshotToBeReady _ _ => true
  | _ => false

/-- Whether the call is `parseToAWSTags`. -/
def Call.isParseTags : Call → Bool
  | .parseToAWSTags _ _ => true
  | _ => false

/-- Whether the call is a request to the provider's EC2 client. -/
def Call.isProvider : Call → Bool
  | .ImportSnapshot _ => true
  | .CreateVolume _ => true
  | .DescribeVolumes _ => true
  | .DeleteVolume _ => true
  | .AttachVolume _ => true
  | .DetachVolume _ => true
  | _ => false

/-- Every field that `GetAllVolumes` dereferences for this volume is set: the volume's identifier,
state, size and creation time, every tag's key, the value of every tag whose key is `"Name"`, and
every attachment's instance identifier. -/
def populated (v : ec2.Volume) : Bool :=
  v.VolumeId.isSome && v.State.isSome && v.Size.isSome && v.CreateTime.isSome &&
    v.Tags.all (fun t => t.Key.isSome && (t.Key != some "Name" || t.Value.isSome)) &&
    v.Attachments.all (fun att => att.InstanceId.isSome)

/-! ## Concrete collaborators, for the examples -/

/-- A configuration: bucket `bkt`, zone `us-west-2`, one user tag. -/
def demoConfig : Config :=
  { CloudConfig := { ImageName := "", BucketName := "bkt", Zone := "us-west-2" }
    RunConfig := { Tags := [⟨"env", "prod"⟩] } }

/-- A provider volume with two tags and two attachments. -/
def demoVolume : ec2.Volume :=
  { VolumeId := some "vol-1"
    State := some "in-use"
    Size := some 1
    CreateTime := some ⟨"2020-01-01"⟩
    Tags := [⟨some "Name", some "db1"⟩, ⟨some "env", some "prod"⟩]
    Attachments := [⟨some "i-aaa"⟩, ⟨some "i-bbb"⟩] }

/-- An EC2 client that answers `ImportSnapshot`, `DescribeVolumes` and `DeleteVolume` with
success, answers `CreateVolume` with `createAnswer`, and refuses `AttachVolume` and
`DetachVolume`. -/
def demoEC2 (createAnswer : Except GoError ec2.Volume) : ec2.EC2 :=
  { ImportSnapshot := fun _ => .ok ⟨some "import-1"⟩
    CreateVolume := fun _ => createAnswer
    DescribeVolumes := fun _ => .ok ⟨[demoVolume]⟩
    DeleteVolume := fun _ => none
    AttachVolume := fun _ => some ⟨"slot in use"⟩
    DetachVolume := fun _ => some ⟨"not attached"⟩ }

/-- A receiver whose collaborators all succeed, apart from `DeleteFromBucket`, which answers
`deleteAnswer`, and the provider's `CreateVolume`, which answers `createAnswer`. -/
def demoAWS (deleteAnswer : Option GoError) (createAnswer : Except GoError ec2.Volume) : AWS :=
  { Storage := { CopyToBucket := fun _ _ => none, DeleteFromBucket := fun _ _ => deleteAnswer }
    getEc2Service := fun _ => .ok (demoEC2 createAnswer)
    waitSnapshotToBeReady := fun _ _ => .ok (some "snap-1") }

/-- Package functions: the local build succeeds, `parseToAWSTags` answers the `Name` tag and
the error `parseAnswer`. -/
def demoPkg (parseAnswer : Option GoError) : Pkg :=
  { CreateLocalVolume := fun _ name _ _ _ => .ok { Name := name, Path := "/tmp/vol.raw" }
    parseToAWSTags := fun _ name => ([⟨some "Name", some name⟩], parseAnswer) }

/-! ## Concrete runs and checks used below -/

/-- The run of `CreateVolume` on `demoConfig` for the volume `db1` in which every collaborator
succeeds and the provider answers the creation request with the volume `vol-1`. -/
def successRun : Run (NanosVolume × Option GoError) :=
  CreateVolume (demoAWS none (.ok demoVolume)) (demoPkg none) demoConfig "db1" "data" "1g" "aws"

/-- Checks that every event satisfying `q` comes after an event satisfying `p`. -/
def precededBy (p q : Event → Bool) : List Event → Bool
  | [] => true
  | e :: es => !q e && (p e || precededBy p q es)

/-- Checks that the events after each event satisfying `p` satisfy `q`. -/
def followedBy (p : Event → Bool) (q : List Event → Bool) : List Event → Bool
  | [] => true
  | e :: es => (!p e || q es) && followedBy p q es

/-- Whether the list is one provider volume-creation request. -/
def isOneCreate : List Event → Bool
  | [c] => c.call.isCreateVolume
  | _ => false

/-- The run of `CreateVolume` like `successRun`, except that the provider refuses the
volume-creation request with the error `quota exceeded`. -/
def createFailRun : Run (NanosVolume × Option GoError) :=
  CreateVolume (demoAWS none (.error ⟨"quota exceeded"⟩)) (demoPkg none) demoConfig
    "db1" "data" "1g" "aws"

/-- The run of `CreateVolume` like `successRun`, except that `DeleteFromBucket` answers the error
`access denied`. -/
def deleteFailRun : Run (NanosVolume × Option GoError) :=
  CreateVolume (demoAWS (some ⟨"access denied"⟩) (.ok demoVolume)) (demoPkg none) demoConfig
    "db1" "data" "1g" "aws"

/-- The run of `CreateVolume` like `successRun`, except that `parseToAWSTags` answers, next to
the tags, the error `bad tag`. -/
def parseFailRun : Run (NanosVolume × Option GoError) :=
  CreateVolume (demoAWS none (.ok demoVolume)) (demoPkg (some ⟨"bad tag"⟩)) demoConfig
    "db1" "data" "1g" "aws"

/-- The configuration the collaborators of the demo runs see after the local build: `demoConfig`
with the image name `db1`. -/
def stagedDemoConfig : Config :=
  { demoConfig with CloudConfig := { demoConfig.CloudConfig with ImageName := "db1" } }

/-- The volume-creation request of the demo runs. -/
def demoCreateInput : ec2.CreateVolumeInput :=
  { AvailabilityZone := some "us-west-2c"
    SnapshotId := some "snap-1"
    TagSpecifications := [{ ResourceType := some "volume", Tags := [⟨some "Name", some "db1"⟩] }] }

/-- Whether the tag's key is exactly `Name`. -/
def isNameTag (t : ec2.Tag) : Bool :=
  t.Key == some "Name"

/-- A receiver whose provider answers `DescribeVolumes` with the volumes `vols`. -/
def listingAWS (vols : List ec2.Volume) : AWS :=
  { Storage := { CopyToBucket := fun _ _ => none, DeleteFromBucket := fun _ _ => none }
    getEc2Service := fun _ =>
      .ok { demoEC2 (.ok demoVolume) with DescribeVolumes := fun _ => .ok ⟨vols⟩ }
    waitSnapshotToBeReady := fun _ _ => .ok (some "snap-1") }

/-- A provider volume without tags and without attachments. -/
def bareVolume : ec2.Volume :=
  { VolumeId := some "vol-2"
    State := some "available"
    Size := some 8
    CreateTime := some ⟨"2020-02-02"⟩
    Tags := []
    Attachments := [] }

/-- The volume `bareVolume` with its identifier and state and with a nil `Size`. -/
def sizelessVolume : ec2.Volume :=
  { bareVolume with Size := none }

/-! ## The record returned by `CreateVolume` -/

/-- The record `CreateVolume` returns is the zero value on every path. -/
theorem CreateVolume_vol_zero (a : AWS) (pkg : Pkg) (config : Config)
    (name data size provider : String) :
    (CreateVolume a pkg config name data size provider).ret.1 = {} := by
  unfold CreateVolume
  simp only []
  repeat' split
  all_goals rfl

/-- C1, evaluated on the code: in the run where every collaborator succeeds (all eight calls are
made and none answers an error, `DeleteFromBucket` on the staged key among them, and the provider
answers the creation request with the volume `vol-1`), `CreateVolume` returns a nil error
together with a record whose `ID` is the empty string. -/
theorem CreateVolume_success_returns_empty_ID :
    successRun.ret.2 = none ∧
      successRun.ret.1.ID = "" ∧
      successRun.ret.1 = {} ∧
      successRun.trace.length = 8 ∧
      (∀ e ∈ successRun.trace, e.err = none) ∧
      (∃ e ∈ successRun.trace, e.call.isDeleteFromBucket = true) ∧
      ⟨.CreateVolume
          { AvailabilityZone := some "us-west-2c"
            SnapshotId := some "snap-1"
            TagSpecifications :=
              [{ ResourceType := some "volume", Tags := [⟨some "Name", some "db1"⟩] }] },
        none⟩ ∈ successRun.trace ∧
      demoVolume.VolumeId = some "vol-1" := by
  decide

/-! ## The requests of `CreateVolume`, `AttachVolume` and `DetachVolume` -/

/-- C10: every volume-creation request that `CreateVolume` sends has as `AvailabilityZone` the
configured zone with the one letter `c` appended (one character longer than the zone, the zone
being its beginning), whatever the other inputs and the collaborators' answers are, and as
`SnapshotId` the identifier that the successful call of `waitSnapshotToBeReady` returned; and the
request is sent whenever the handle, the local build, the upload, the import, the wait and the
deletion of the staged object succeed (no call other than `parseToAWSTags` and the request itself
answers an error). -/
theorem CreateVolume_request_zone_and_snapshot (a : AWS) (pkg : Pkg) (config : Config)
    (name data size provider : String) :
    (∀ input err,
      ⟨.CreateVolume input, err⟩ ∈ (CreateVolume a pkg config name data size provider).trace →
        input.AvailabilityZone = some (config.CloudConfig.Zone ++ "c") ∧
        (config.CloudConfig.Zone ++ "c").length = config.CloudConfig.Zone.length + 1 ∧
        (config.CloudConfig.Zone ++ "c").data = config.CloudConfig.Zone.data ++ ['c'] ∧
        config.CloudConfig.Zone.data <+: (config.CloudConfig.Zone ++ "c").data ∧
        ∃ cfg taskId,
          ⟨.waitSnapshotToBeReady cfg taskId, none⟩ ∈
              (CreateVolume a pkg config name data size provider).trace ∧
            a.waitSnapshotToBeReady cfg taskId = .ok input.SnapshotId) ∧
    ((∀ e ∈ (CreateVolume a pkg config name data size provider).trace,
        e.call.isCreateVolume = false → e.call.isParseTags = false → e.err = none) →
      ∃ e ∈ (CreateVolume a pkg config name data size provider).trace,
        e.call.isCreateVolume = true) := by
  have hlen : (config.CloudConfig.Zone ++ "c").length = config.CloudConfig.Zone.length + 1 := by
    simp [String.length_append]
    rfl
  have hdata :
      (config.CloudConfig.Zone ++ "c").data = config.CloudConfig.Zone.data ++ ['c'] := by
    simp [String.data_append]
  have hpre : config.CloudConfig.Zone.data <+: (config.CloudConfig.Zone ++ "c").data :=
    ⟨['c'], hdata.symm⟩
  constructor
  · intro input err
    unfold CreateVolume
    simp only []
    repeat' split
    all_goals simp_all [errOf]
    all_goals
      rintro rfl -
      exact ⟨_, _, ⟨rfl, rfl⟩, by assumption⟩
  · unfold CreateVolume
    simp only []
    repeat' split
    all_goals simp_all [errOf, Call.isCreateVolume, Call.isParseTags]

/-- Witness of C10: in `successRun` the request is sent, for the zone `us-west-2c` and the
snapshot `snap-1`. -/
theorem CreateVolume_request_zone_and_snapshot_witness :
    (∃ e ∈ successRun.trace, e.call.isCreateVolume = true) ∧
      ∀ input err, ⟨.CreateVolume input, err⟩ ∈ successRun.trace →
        input.AvailabilityZone = some "us-west-2c" :=
  ⟨(CreateVolume_request_zone_and_snapshot (demoAWS none (.ok demoVolume)) (demoPkg none)
      demoConfig "db1" "data" "1g" "aws").2 (by decide),
    fun input err h =>
      ((CreateVolume_request_zone_and_snapshot (demoAWS none (.ok demoVolume)) (demoPkg none)
        demoConfig "db1" "data" "1g" "aws").1 input err h).1⟩

/-- C9: the request `AttachVolume` sends has `Device` `/dev/sdf`, `InstanceId` the instance
argument and `VolumeId` the volume argument, and it is sent whenever the service handle is
obtained; the whole run is the same for any two values of the mount argument; and the request
`DetachVolume` sends carries the same `Device`, with the instance and volume arguments. -/
theorem attach_detach_fixed_device (a : AWS) (config : Config) (image name mount : String) :
    (∀ input err, ⟨.AttachVolume input, err⟩ ∈ (AttachVolume a config image name mount).trace →
      input = { Device := some "/dev/sdf", InstanceId := some image, VolumeId := some name }) ∧
    (∀ compute, a.getEc2Service config = .ok compute →
      ∃ err, ⟨.AttachVolume ⟨some "/dev/sdf", some image, some name⟩, err⟩ ∈
        (AttachVolume a config image name mount).trace) ∧
    (∀ mount2, AttachVolume a config image name mount2 = AttachVolume a config image name mount) ∧
    (∀ input err, ⟨.DetachVolume input, err⟩ ∈ (DetachVolume a config image name).trace →
      input = { Device := some "/dev/sdf", InstanceId := some image, VolumeId := some name }) ∧
    (∀ compute, a.getEc2Service config = .ok compute →
      ∃ err, ⟨.DetachVolume ⟨some "/dev/sdf", some image, some name⟩, err⟩ ∈
        (DetachVolume a config image name).trace) := by
  refine ⟨?_, ?_, fun _ => rfl, ?_, ?_⟩
  · intro input err
    unfold AttachVolume
    simp only []
    repeat' split
    all_goals simp_all [errOf]
  · intro compute h
    unfold AttachVolume
    simp only [h]
    split
    all_goals simp [errOf]
  · intro input err
    unfold DetachVolume
    simp only []
    repeat' split
    all_goals simp_all [errOf]
  · intro compute h
    unfold DetachVolume
    simp only [h]
    split
    all_goals simp [errOf]

/-- Witness of C9: with a handle, attaching `vol-1` to `i-aaa` sends the request for `/dev/sdf`
whether the mount argument is `/mnt/a` or `/mnt/b`. -/
theorem attach_detach_fixed_device_witness :
    (∃ err, ⟨.AttachVolume ⟨some "/dev/sdf", some "i-aaa", some "vol-1"⟩, err⟩ ∈
        (AttachVolume (demoAWS none (.ok demoVolume)) demoConfig "i-aaa" "vol-1" "/mnt/a").trace) ∧
      AttachVolume (demoAWS none (.ok demoVolume)) demoConfig "i-aaa" "vol-1" "/mnt/b" =
        AttachVolume (demoAWS none (.ok demoVolume)) demoConfig "i-aaa" "vol-1" "/mnt/a" :=
  ⟨(attach_detach_fixed_device (demoAWS none (.ok demoVolume)) demoConfig "i-aaa" "vol-1"
      "/mnt/a").2.1 _ rfl,
    (attach_detach_fixed_device (demoAWS none (.ok demoVolume)) demoConfig "i-aaa" "vol-1"
      "/mnt/a").2.2.1 "/mnt/b"⟩

/-! ## The single-shot operations -/

/-- C8: when the service handle is obtained, each of `DeleteVolume`, `AttachVolume` and
`DetachVolume` makes, after the call that obtained the handle, its one provider request and no
other call: the provider requests of its trace are that single request, and the operation returns
exactly what the provider answered (nil on success, the provider's own error value otherwise).
In particular the trace of `DeleteVolume` holds no attach and no detach request. -/
theorem single_shot_operations (a : AWS) (config : Config) (image name mount : String)
    (compute : ec2.EC2) (h : a.getEc2Service config = .ok compute) :
    ((DeleteVolume a config name).trace =
        [⟨.getEc2Service config, none⟩,
          ⟨.DeleteVolume ⟨some name⟩, compute.DeleteVolume ⟨some name⟩⟩] ∧
      (DeleteVolume a config name).trace.filter (fun e => e.call.isProvider) =
        [⟨.DeleteVolume ⟨some name⟩, compute.DeleteVolume ⟨some name⟩⟩] ∧
      (DeleteVolume a config name).ret = compute.DeleteVolume ⟨some name⟩ ∧
      (∀ e ∈ (DeleteVolume a config name).trace,
        (∀ input, e.call ≠ .AttachVolume input) ∧ (∀ input, e.call ≠ .DetachVolume input))) ∧
    ((AttachVolume a config image name mount).trace =
        [⟨.getEc2Service config, none⟩,
          ⟨.AttachVolume ⟨some "/dev/sdf", some image, some name⟩,
            compute.AttachVolume ⟨some "/dev/sdf", some image, some name⟩⟩] ∧
      (AttachVolume a config image name mount).trace.filter (fun e => e.call.isProvider) =
        [⟨.AttachVolume ⟨some "/dev/sdf", some image, some name⟩,
            compute.AttachVolume ⟨some "/dev/sdf", some image, some name⟩⟩] ∧
      (AttachVolume a config image name mount).ret =
        compute.AttachVolume ⟨some "/dev/sdf", some image, some name⟩) ∧
    ((DetachVolume a config image name).trace =
        [⟨.getEc2Service config, none⟩,
          ⟨.DetachVolume ⟨some "/dev/sdf", some image, some name⟩,
            compute.DetachVolume ⟨some "/dev/sdf", some image, some name⟩⟩] ∧
      (DetachVolume a config image name).trace.filter (fun e => e.call.isProvider) =
        [⟨.DetachVolume ⟨some "/dev/sdf", some image, some name⟩,
            compute.DetachVolume ⟨some "/dev/sdf", some image, some name⟩⟩] ∧
      (DetachVolume a config image name).ret =
        compute.DetachVolume ⟨some "/dev/sdf", some image, some name⟩) := by
  refine ⟨?_, ?_, ?_⟩
  · unfold DeleteVolume
    simp only [h]
    split
    all_goals simp_all [errOf, Call.isProvider]
  · unfold AttachVolume
    simp only [h]
    split
    all_goals simp_all [errOf, Call.isProvider]
  · unfold DetachVolume
    simp only [h]
    split
    all_goals simp_all [errOf, Call.isProvider]

/-- Witness of C8: with a handle whose provider accepts the deletion and refuses the attachment
with the error `slot in use`, `DeleteVolume` returns nil and `AttachVolume` returns that error. -/
theorem single_shot_operations_witness :
    (DeleteVolume (demoAWS none (.ok demoVolume)) demoConfig "vol-1").ret = none ∧
      (AttachVolume (demoAWS none (.ok demoVolume)) demoConfig "i-aaa" "vol-1" "/mnt").ret =
        some ⟨"slot in use"⟩ ∧
      (DetachVolume (demoAWS none (.ok demoVolume)) demoConfig "i-aaa" "vol-1").ret =
        some ⟨"not attached"⟩ :=
  ⟨(single_shot_operations (demoAWS none (.ok demoVolume)) demoConfig "i-aaa" "vol-1" "/mnt"
      (demoEC2 (.ok demoVolume)) rfl).1.2.2.1,
    (single_shot_operations (demoAWS none (.ok demoVolume)) demoConfig "i-aaa" "vol-1" "/mnt"
      (demoEC2 (.ok demoVolume)) rfl).2.1.2.2,
    (single_shot_operations (demoAWS none (.ok demoVolume)) demoConfig "i-aaa" "vol-1" "/mnt"
      (demoEC2 (.ok demoVolume)) rfl).2.2.2.2⟩

/-! ## Order of the calls of `CreateVolume` -/

/-- What `precededBy` checks, in terms of positions in the list. -/
theorem precededBy_sound (p q : Event → Bool) :
    ∀ (l : List Event), precededBy p q l = true →
      ∀ pre e post, l = pre ++ e :: post → q e = true → ∃ d ∈ pre, p d = true
  | [], _, pre, e, post, hl, _ => by simp at hl
  | x :: xs, h, [], e, post, hl, hq => by
      simp only [List.nil_append, List.cons.injEq] at hl
      obtain ⟨rfl, -⟩ := hl
      simp [precededBy, hq] at h
  | x :: xs, h, y :: pre, e, post, hl, hq => by
      simp only [List.cons_append, List.cons.injEq] at hl
      obtain ⟨rfl, rfl⟩ := hl
      simp only [precededBy, Bool.and_eq_true, Bool.or_eq_true] at h
      rcases h.2 with hp | hrec
      · exact ⟨x, List.mem_cons_self _ _, hp⟩
      · obtain ⟨d, hd, hpd⟩ := precededBy_sound p q _ hrec pre e post rfl hq
        exact ⟨d, List.mem_cons_of_mem _ hd, hpd⟩

/-- What `followedBy` checks, in terms of positions in the list. -/
theorem followedBy_sound (p : Event → Bool) (q : List Event → Bool) :
    ∀ (l : List Event), followedBy p q l = true →
      ∀ pre e post, l = pre ++ e :: post → p e = true → q post = true
  | [], _, pre, e, post, hl, _ => by simp at hl
  | x :: xs, h, [], e, post, hl, hb => by
      simp only [List.nil_append, List.cons.injEq] at hl
      obtain ⟨rfl, rfl⟩ := hl
      simp only [followedBy, Bool.and_eq_true, Bool.or_eq_true] at h
      rcases h.1 with hn | he
      · simp [hb] at hn
      · exact he
  | x :: xs, h, y :: pre, e, post, hl, hb => by
      simp only [List.cons_append, List.cons.injEq] at hl
      obtain ⟨rfl, rfl⟩ := hl
      simp only [followedBy, Bool.and_eq_true] at h
      exact followedBy_sound p q _ h.2 pre e post rfl hb

/-- In every run of `CreateVolume` the provider's volume-creation request comes after a call of
`DeleteFromBucket`. -/
theorem CreateVolume_delete_precedes_create (a : AWS) (pkg : Pkg) (config : Config)
    (name data size provider : String) :
    precededBy (fun e => e.call.isDeleteFromBucket) (fun e => e.call.isCreateVolume)
      (CreateVolume a pkg config name data size provider).trace = true := by
  unfold CreateVolume
  simp only []
  repeat' split
  all_goals simp [precededBy, Call.isDeleteFromBucket, Call.isCreateVolume]

/-- In every run of `CreateVolume` a call that answers an error, other than `parseToAWSTags`,
is the last call. -/
theorem CreateVolume_error_ends (a : AWS) (pkg : Pkg) (config : Config)
    (name data size provider : String) :
    followedBy (fun e => e.err.isSome && !e.call.isParseTags) List.isEmpty
      (CreateVolume a pkg config name data size provider).trace = true := by
  unfold CreateVolume
  simp only []
  repeat' split
  all_goals simp_all [followedBy, Call.isParseTags, errOf]

/-- In every run of `CreateVolume` the call of `parseToAWSTags` is followed by the provider's
volume-creation request, which is the last call. -/
theorem CreateVolume_parse_then_create (a : AWS) (pkg : Pkg) (config : Config)
    (name data size provider : String) :
    followedBy (fun e => e.call.isParseTags) isOneCreate
      (CreateVolume a pkg config name data size provider).trace = true := by
  unfold CreateVolume
  simp only []
  repeat' split
  all_goals simp [followedBy, Call.isParseTags, isOneCreate, Call.isCreateVolume]

/-- In every run of `CreateVolume` that reaches the provider's volume-creation request, the error
returned is nil exactly when the request's answer is. -/
theorem CreateVolume_ret_of_create (a : AWS) (pkg : Pkg) (config : Config)
    (name data size provider : String) (input : ec2.CreateVolumeInput) (err : Option GoError)
    (h : ⟨.CreateVolume input, err⟩ ∈ (CreateVolume a pkg config name data size provider).trace) :
    (CreateVolume a pkg config name data size provider).ret.2 =
      err.map (Errorf "create aws volume: ") := by
  revert h
  unfold CreateVolume
  simp only []
  repeat' split
  all_goals simp_all [errOf]

/-- The error `CreateVolume` returns is non-nil whenever a call other than `parseToAWSTags`
answered an error. -/
theorem CreateVolume_ret_of_error (a : AWS) (pkg : Pkg) (config : Config)
    (name data size provider : String) (e : Event)
    (h : e ∈ (CreateVolume a pkg config name data size provider).trace)
    (he : e.err ≠ none) (hp : e.call.isParseTags = false) :
    (CreateVolume a pkg config name data size provider).ret.2 ≠ none := by
  revert h
  unfold CreateVolume
  simp only []
  repeat' split
  all_goals simp_all [errOf]
  refine ⟨?_, ?_, ?_, ?_, ?_, ?_, ?_, ?_⟩ <;>
    · rintro rfl
      simp_all [Call.isParseTags]

/-! ## The staged object -/

/-- C2: in the trace of `CreateVolume`, `DeleteFromBucket` is called if and only if both
`ImportSnapshot` and `waitSnapshotToBeReady` were called and answered no error; its key is the
`S3Key` of the request sent to `ImportSnapshot`; every provider volume-creation request comes
after a `DeleteFromBucket` call; when `ImportSnapshot` or `waitSnapshotToBeReady` answers an
error, `CreateVolume` returns an error and its trace holds neither a `DeleteFromBucket` call nor
a volume-creation request; and when the volume-creation request answers an error, `CreateVolume`
returns an error and its trace holds a successful `DeleteFromBucket` call whose key is that
`S3Key`. -/
theorem CreateVolume_staged_object_lifecycle (a : AWS) (pkg : Pkg) (config : Config)
    (name data size provider : String) :
    ((∃ e ∈ (CreateVolume a pkg config name data size provider).trace,
        e.call.isDeleteFromBucket = true) ↔
      ((∃ e ∈ (CreateVolume a pkg config name data size provider).trace,
          e.call.isImportSnapshot = true ∧ e.err = none) ∧
        (∃ e ∈ (CreateVolume a pkg config name data size provider).trace,
          e.call.isWaitSnapshot = true ∧ e.err = none))) ∧
    (∀ cfg key err,
      ⟨.DeleteFromBucket cfg key, err⟩ ∈
          (CreateVolume a pkg config name data size provider).trace →
        ∃ importInput,
          ⟨.ImportSnapshot importInput, none⟩ ∈
              (CreateVolume a pkg config name data size provider).trace ∧
            importInput.DiskContainer.UserBucket.S3Key = some key) ∧
    (∀ pre e post, (CreateVolume a pkg config name data size provider).trace = pre ++ e :: post →
      e.call.isCreateVolume = true → ∃ d ∈ pre, d.call.isDeleteFromBucket = true) ∧
    (∀ e ∈ (CreateVolume a pkg config name data size provider).trace,
      (e.call.isImportSnapshot = true ∨ e.call.isWaitSnapshot = true) → e.err ≠ none →
        (CreateVolume a pkg config name data size provider).ret.2 ≠ none ∧
        (∀ d ∈ (CreateVolume a pkg config name data size provider).trace,
          d.call.isDeleteFromBucket = false) ∧
        (∀ d ∈ (CreateVolume a pkg config name data size provider).trace,
          d.call.isCreateVolume = false)) ∧
    (∀ input err,
      ⟨.CreateVolume input, some err⟩ ∈
          (CreateVolume a pkg config name data size provider).trace →
        (CreateVolume a pkg config name data size provider).ret.2 ≠ none ∧
        ∃ cfg key importInput,
          ⟨.DeleteFromBucket cfg key, none⟩ ∈
              (CreateVolume a pkg config name data size provider).trace ∧
            ⟨.ImportSnapshot importInput, none⟩ ∈
              (CreateVolume a pkg config name data size provider).trace ∧
            importInput.DiskContainer.UserBucket.S3Key = some key) := by
  refine ⟨?_, ?_, ?_, ?_, ?_⟩
  · unfold CreateVolume
    simp only []
    repeat' split
    all_goals
      simp_all [errOf, Call.isDeleteFromBucket, Call.isImportSnapshot, Call.isWaitSnapshot]
  · intro cfg key err
    unfold CreateVolume
    simp only []
    repeat' split
    all_goals simp_all [errOf]
  · intro pre e post hl hc
    exact precededBy_sound _ _ _
      (CreateVolume_delete_precedes_create a pkg config name data size provider) pre e post hl hc
  · intro e he hk herr
    refine ⟨CreateVolume_ret_of_error a pkg config name data size provider e he herr ?_, ?_⟩
    · rcases e with ⟨c, _⟩
      cases c <;> simp_all [Call.isParseTags, Call.isImportSnapshot, Call.isWaitSnapshot]
    · revert he
      unfold CreateVolume
      simp only []
      repeat' split
      all_goals
        simp_all [errOf, Call.isDeleteFromBucket, Call.isImportSnapshot, Call.isWaitSnapshot,
          Call.isCreateVolume]
      all_goals repeat' apply And.intro
      all_goals
        rintro rfl
        simp_all [Call.isImportSnapshot, Call.isWaitSnapshot]
  · intro input err h
    refine ⟨?_, ?_⟩
    · rw [CreateVolume_ret_of_create a pkg config name data size provider input _ h]
      simp
    · revert h
      unfold CreateVolume
      simp only []
      repeat' split
      all_goals simp_all [errOf]

/-- Witness of C2: in `createFailRun` the provider refuses the creation; the run returns an
error, after a successful `DeleteFromBucket` on the key of the import request. -/
theorem CreateVolume_staged_object_lifecycle_witness :
    createFailRun.ret.2 ≠ none ∧
      ∃ cfg key importInput,
        ⟨.DeleteFromBucket cfg key, none⟩ ∈ createFailRun.trace ∧
          ⟨.ImportSnapshot importInput, none⟩ ∈ createFailRun.trace ∧
          importInput.DiskContainer.UserBucket.S3Key = some key :=
  (CreateVolume_staged_object_lifecycle (demoAWS none (.error ⟨"quota exceeded"⟩)) (demoPkg none)
    demoConfig "db1" "data" "1g" "aws").2.2.2.2 demoCreateInput ⟨"quota exceeded"⟩ (by decide)

/-- C3 as stated fails: in `deleteFailRun` the import wait returns the snapshot `snap-1` and
`DeleteFromBucket` then answers an error; no volume-creation request is issued and the run
returns the deletion's error, whereas the run in which the deletion succeeds (`successRun`)
issues the request and returns nil. -/
theorem CreateVolume_delete_failure_counterexample :
    ⟨.waitSnapshotToBeReady stagedDemoConfig (some "import-1"), none⟩ ∈ deleteFailRun.trace ∧
      (demoAWS (some ⟨"access denied"⟩) (.ok demoVolume)).waitSnapshotToBeReady stagedDemoConfig
          (some "import-1") = .ok (some "snap-1") ∧
      ⟨.DeleteFromBucket stagedDemoConfig "db1", some ⟨"access denied"⟩⟩ ∈ deleteFailRun.trace ∧
      (∀ e ∈ deleteFailRun.trace, e.call.isCreateVolume = false) ∧
      deleteFailRun.ret.2 = some ⟨"access denied"⟩ ∧
      ⟨.CreateVolume demoCreateInput, none⟩ ∈ successRun.trace ∧
      successRun.ret.2 = none := by
  refine ⟨by decide, rfl, by decide, by decide, by decide, by decide, by decide⟩

/-- C3, amended: whenever `DeleteFromBucket` answers an error (the import wait having returned a
snapshot identifier), `CreateVolume` returns the zero record with exactly that error, the
deletion is its last call, and it issues no volume-creation request. -/
theorem CreateVolume_delete_failure_aborts (a : AWS) (pkg : Pkg) (config : Config)
    (name data size provider : String) (cfg : Config) (key : String) (err : GoError)
    (h : ⟨.DeleteFromBucket cfg key, some err⟩ ∈
      (CreateVolume a pkg config name data size provider).trace) :
    (CreateVolume a pkg config name data size provider).ret = ({}, some err) ∧
      (CreateVolume a pkg config name data size provider).trace.getLast? =
        some ⟨.DeleteFromBucket cfg key, some err⟩ ∧
      (∀ d ∈ (CreateVolume a pkg config name data size provider).trace,
        d.call.isCreateVolume = false) ∧
      ∃ c taskId snapshotID,
        ⟨.waitSnapshotToBeReady c taskId, none⟩ ∈
            (CreateVolume a pkg config name data size provider).trace ∧
          a.waitSnapshotToBeReady c taskId = .ok snapshotID := by
  revert h
  unfold CreateVolume
  simp only []
  repeat' split
  all_goals simp_all [errOf, Call.isCreateVolume]
  rintro rfl rfl rfl
  exact ⟨_, _, ⟨rfl, rfl⟩, _, by assumption⟩

/-- Witness of C3, amended: `deleteFailRun`. -/
theorem CreateVolume_delete_failure_aborts_witness :
    deleteFailRun.ret = ({}, some ⟨"access denied"⟩) ∧
      ∀ d ∈ deleteFailRun.trace, d.call.isCreateVolume = false :=
  ⟨(CreateVolume_delete_failure_aborts (demoAWS (some ⟨"access denied"⟩) (.ok demoVolume))
      (demoPkg none) demoConfig "db1" "data" "1g" "aws" stagedDemoConfig "db1" ⟨"access denied"⟩
      (by decide)).1,
    (CreateVolume_delete_failure_aborts (demoAWS (some ⟨"access denied"⟩) (.ok demoVolume))
      (demoPkg none) demoConfig "db1" "data" "1g" "aws" stagedDemoConfig "db1" ⟨"access denied"⟩
      (by decide)).2.2.1⟩

/-! ## Propagation of errors -/

/-- The tags of every volume-creation request of `CreateVolume` are the tags that
`parseToAWSTags` answered for the configured tags and the volume's name. -/
theorem CreateVolume_create_tags (a : AWS) (pkg : Pkg) (config : Config)
    (name data size provider : String) (input : ec2.CreateVolumeInput) (err : Option GoError)
    (h : ⟨.CreateVolume input, err⟩ ∈ (CreateVolume a pkg config name data size provider).trace) :
    input.TagSpecifications =
      [{ ResourceType := some "volume"
         Tags := (pkg.parseToAWSTags config.RunConfig.Tags name).1 }] := by
  revert h
  unfold CreateVolume
  simp only []
  repeat' split
  all_goals simp_all [errOf]

/-- The call of `parseToAWSTags` in a run of `CreateVolume` is made on the configured tags and
the volume's name, and the trace records the second result it answered. -/
theorem CreateVolume_parse_event (a : AWS) (pkg : Pkg) (config : Config)
    (name data size provider : String) (tags : List Tag) (nm : String) (perr : Option GoError)
    (h : ⟨.parseToAWSTags tags nm, perr⟩ ∈
      (CreateVolume a pkg config name data size provider).trace) :
    tags = config.RunConfig.Tags ∧ nm = name ∧
      perr = (pkg.parseToAWSTags config.RunConfig.Tags name).2 := by
  revert h
  unfold CreateVolume
  simp only []
  repeat' split
  all_goals simp_all [errOf]

/-- C4 as stated fails, `parseToAWSTags` answering an error as the spec's contract has it: in
`parseFailRun` it answers the tag `Name = db1` together with the error `bad tag`; the provider
volume-creation request is still issued after it, and `CreateVolume` returns a nil error. -/
theorem CreateVolume_parse_error_counterexample :
    parseFailRun.trace.drop 6 =
        [⟨.parseToAWSTags [⟨"env", "prod"⟩] "db1", some ⟨"bad tag"⟩⟩,
          ⟨.CreateVolume demoCreateInput, none⟩] ∧
      (demoPkg (some ⟨"bad tag"⟩)).parseToAWSTags [⟨"env", "prod"⟩] "db1" =
        ([⟨some "Name", some "db1"⟩], some ⟨"bad tag"⟩) ∧
      parseFailRun.ret.2 = none := by
  refine ⟨by decide, rfl, by decide⟩

/-- C4, amended: when a collaborator other than `parseToAWSTags` answers an error, `CreateVolume`
returns a non-nil error and that call is the last of the run; the second result of
`parseToAWSTags` (the error of the spec's contract) is discarded: the call is made on the
configured tags and the volume's name, and whatever error it answers, the next and last call is
the provider's volume-creation request, whose one tag specification carries exactly the tags that
`parseToAWSTags` answered, and the error `CreateVolume` returns is that request's (wrapped), nil
when it succeeds. -/
theorem CreateVolume_errors_propagate_except_tags (a : AWS) (pkg : Pkg) (config : Config)
    (name data size provider : String) :
    (∀ pre e post, (CreateVolume a pkg config name data size provider).trace = pre ++ e :: post →
      e.err ≠ none → e.call.isParseTags = false →
        (CreateVolume a pkg config name data size provider).ret.2 ≠ none ∧ post = []) ∧
    (∀ pre tags nm perr post,
      (CreateVolume a pkg config name data size provider).trace =
          pre ++ ⟨.parseToAWSTags tags nm, perr⟩ :: post →
        tags = config.RunConfig.Tags ∧ nm = name ∧ perr = (pkg.parseToAWSTags tags nm).2 ∧
        ∃ input cerr, post = [⟨.CreateVolume input, cerr⟩] ∧
          input.TagSpecifications =
            [{ ResourceType := some "volume", Tags := (pkg.parseToAWSTags tags nm).1 }] ∧
          (CreateVolume a pkg config name data size provider).ret.2 =
            cerr.map (Errorf "create aws volume: ")) := by
  constructor
  · intro pre e post hl herr hp
    refine ⟨CreateVolume_ret_of_error a pkg config name data size provider e ?_ herr hp, ?_⟩
    · rw [hl]
      simp
    · have := followedBy_sound _ _ _
        (CreateVolume_error_ends a pkg config name data size provider) pre e post hl
        (by
          cases hErr : e.err with
          | none => exact absurd hErr herr
          | some _ => simp [hp])
      simpa using this
  · intro pre tags nm perr post hl
    obtain ⟨htags, hnm, hperr⟩ := CreateVolume_parse_event a pkg config name data size provider
      tags nm perr (by rw [hl]; simp)
    refine ⟨htags, hnm, by rw [htags, hnm]; exact hperr, ?_⟩
    have h1 := followedBy_sound _ _ _
      (CreateVolume_parse_then_create a pkg config name data size provider) pre _ post hl rfl
    match post, h1 with
    | [c], h1 =>
      rcases c with ⟨call, cerr⟩
      cases call <;> simp [isOneCreate, Call.isCreateVolume] at h1
      rename_i input
      have hmem : ⟨.CreateVolume input, cerr⟩ ∈
          (CreateVolume a pkg config name data size provider).trace := by
        rw [hl]
        simp
      refine ⟨input, cerr, rfl, ?_,
        CreateVolume_ret_of_create a pkg config name data size provider input cerr hmem⟩
      rw [htags, hnm]
      exact CreateVolume_create_tags a pkg config name data size provider input cerr hmem

/-- Witness of C4, amended: in `createFailRun` the refused creation request is the last call and
the run returns an error; in `parseFailRun` the tag parsing answers the tag `Name = db1` and the
error `bad tag`, and the request that follows carries that tag. -/
theorem CreateVolume_errors_propagate_except_tags_witness :
    (createFailRun.ret.2 ≠ none ∧ ([] : List Event) = []) ∧
      ([⟨"env", "prod"⟩] = demoConfig.RunConfig.Tags ∧ "db1" = "db1" ∧
        some ⟨"bad tag"⟩ =
          ((demoPkg (some ⟨"bad tag"⟩)).parseToAWSTags [⟨"env", "prod"⟩] "db1").2 ∧
        ∃ input cerr, [(⟨.CreateVolume demoCreateInput, none⟩ : Event)] =
            [⟨.CreateVolume input, cerr⟩] ∧
          input.TagSpecifications =
            [{ ResourceType := some "volume"
               Tags := ((demoPkg (some ⟨"bad tag"⟩)).parseToAWSTags [⟨"env", "prod"⟩] "db1").1 }] ∧
          parseFailRun.ret.2 = cerr.map (Errorf "create aws volume: ")) :=
  ⟨(CreateVolume_errors_propagate_except_tags (demoAWS none (.error ⟨"quota exceeded"⟩))
      (demoPkg none) demoConfig "db1" "data" "1g" "aws").1
      (createFailRun.trace.take 7) ⟨.CreateVolume demoCreateInput, some ⟨"quota exceeded"⟩⟩ []
      (by decide) (by decide) (by decide),
    (CreateVolume_errors_propagate_except_tags (demoAWS none (.ok demoVolume))
      (demoPkg (some ⟨"bad tag"⟩)) demoConfig "db1" "data" "1g" "aws").2
      (parseFailRun.trace.take 6) [⟨"env", "prod"⟩] "db1" (some ⟨"bad tag"⟩)
      [⟨.CreateVolume demoCreateInput, none⟩] (by decide)⟩

/-! ## The records of `GetAllVolumes` -/

/-- The loop over the tags of a volume whose dereferenced fields are set ends with the value of
the last tag whose key is `Name`, and with the empty string when there is none. -/
theorem tagLoop_spec (tags : List ec2.Tag)
    (hp : ∀ t ∈ tags, t.Key.isSome = true ∧ (t.Key = some "Name" → t.Value.isSome = true)) :
    ∃ name, tagLoop tags = some name ∧
      ((tags.filter isNameTag).getLast? = none → name = "") ∧
      (∀ t, (tags.filter isNameTag).getLast? = some t → t.Value = some name) := by
  induction tags using List.reverseRecOn with
  | nil => exact ⟨"", rfl, fun _ => rfl, by simp⟩
  | append_singleton tags t ih =>
    obtain ⟨name, hname, hnone, hsome⟩ := ih (fun u hu => hp u (by simp [hu]))
    obtain ⟨hk, hv⟩ := hp t (by simp)
    obtain ⟨key, hkey⟩ := Option.isSome_iff_exists.mp hk
    by_cases hN : key = "Name"
    · subst hN
      obtain ⟨value, hvalue⟩ := Option.isSome_iff_exists.mp (hv hkey)
      refine ⟨value, ?_, ?_, ?_⟩
      · simp [tagLoop, List.foldlM_append] at hname ⊢
        simp [hname, hkey, hvalue]
      · simp [List.filter_append, isNameTag, hkey]
      · intro u hu
        simp [List.filter_append, isNameTag, hkey] at hu
        subst hu
        exact hvalue
    · refine ⟨name, ?_, ?_, ?_⟩
      · simp [tagLoop, List.foldlM_append] at hname ⊢
        simp [hname, hkey, hN]
      · intro h
        apply hnone
        simpa [List.filter_append, isNameTag, hkey, hN] using h
      · intro u hu
        apply hsome
        simpa [List.filter_append, isNameTag, hkey, hN] using hu

/-- The loop over the attachments of a volume whose instance identifiers are all set collects
them, in order. -/
theorem attachmentLoop_spec (atts : List ec2.VolumeAttachment)
    (hp : ∀ att ∈ atts, att.InstanceId.isSome = true) :
    ∃ ids, attachmentLoop atts = some ids ∧ atts.map (fun att => att.InstanceId) = ids.map some := by
  induction atts using List.reverseRecOn with
  | nil => exact ⟨[], rfl, rfl⟩
  | append_singleton atts att ih =>
    obtain ⟨ids, hids, hmap⟩ := ih (fun u hu => hp u (by simp [hu]))
    obtain ⟨i, hi⟩ := Option.isSome_iff_exists.mp (hp att (by simp))
    refine ⟨ids ++ [i], ?_, ?_⟩
    · simp [attachmentLoop, List.foldlM_append] at hids ⊢
      simp [hids, hi]
    · simp [hmap, hi]

/-- The accumulating loop of `String.intercalate`, in terms of `stringsJoin`. -/
theorem intercalate_go_eq (sep : String) :
    ∀ (l : List String) (acc : String),
      String.intercalate.go acc sep l = stringsJoin (acc :: l) sep
  | [], acc => by simp [String.intercalate.go, stringsJoin]
  | a :: l, acc => by
      rw [String.intercalate.go, intercalate_go_eq sep l (acc ++ sep ++ a)]
      cases l with
      | nil => simp [stringsJoin]
      | cons b l => simp [stringsJoin, String.append_assoc]

/-- The function `strings.Join` is the library's `String.intercalate`. -/
theorem stringsJoin_eq_intercalate (sep : String) (l : List String) :
    stringsJoin l sep = sep.intercalate l := by
  cases l with
  | nil => rfl
  | cons a l => rw [String.intercalate, intercalate_go_eq]

/-- The record built for a volume whose dereferenced fields are all set. -/
theorem volumeRecord_spec (v : ec2.Volume) (hp : populated v = true) :
    ∃ r, volumeRecord v = some r ∧
      v.VolumeId = some r.ID ∧ v.State = some r.Status ∧ r.Path = "" ∧
      ((v.Tags.filter isNameTag).getLast? = none → r.Name = "") ∧
      (∀ t, (v.Tags.filter isNameTag).getLast? = some t → t.Value = some r.Name) ∧
      ∃ ids, v.Attachments.map (fun att => att.InstanceId) = ids.map some ∧
        r.AttachedTo = ";".intercalate ids := by
  simp only [populated, Bool.and_eq_true, List.all_eq_true, Bool.or_eq_true, bne_iff_ne,
    ne_eq] at hp
  obtain ⟨⟨⟨⟨⟨hid, hstate⟩, hsize⟩, htime⟩, htags⟩, hatts⟩ := hp
  obtain ⟨name, hname, hnone, hsome⟩ := tagLoop_spec v.Tags (fun t ht =>
    ⟨(htags t ht).1, fun hk => (htags t ht).2.resolve_left (fun hne => hne hk)⟩)
  obtain ⟨ids, hids, hmap⟩ := attachmentLoop_spec v.Attachments hatts
  obtain ⟨id, hid⟩ := Option.isSome_iff_exists.mp hid
  obtain ⟨state, hstate⟩ := Option.isSome_iff_exists.mp hstate
  obtain ⟨size, hsize⟩ := Option.isSome_iff_exists.mp hsize
  obtain ⟨time, htime⟩ := Option.isSome_iff_exists.mp htime
  refine ⟨(⟨id, name, state, Itoa size, "", time.text, stringsJoin ids ";"⟩ : NanosVolume),
    ?_, ?_, ?_, ?_, ?_, ?_, ids, hmap, ?_⟩
  · simp [volumeRecord, hname, hids, hid, hstate, hsize, htime]
  · simp [hid]
  · simp [hstate]
  · rfl
  · exact hnone
  · exact hsome
  · exact stringsJoin_eq_intercalate ";" ids

/-- The loop over the tags ends without a panic only when every key, and the value of every tag
whose key is `Name`, is set. -/
theorem tagLoop_some (tags : List ec2.Tag) (name : String) (h : tagLoop tags = some name) :
    ∀ t ∈ tags, t.Key.isSome = true ∧ (t.Key = some "Name" → t.Value.isSome = true) := by
  induction tags using List.reverseRecOn generalizing name with
  | nil => simp
  | append_singleton tags t ih =>
    simp [tagLoop, List.foldlM_append] at h
    obtain ⟨prev, hprev, h⟩ := Option.bind_eq_some.mp h
    have ih' := ih prev (by simpa [tagLoop] using hprev)
    · intro u hu
      rcases List.mem_append.mp hu with hu | hu
      · exact ih' u hu
      · simp only [List.mem_singleton] at hu
        subst hu
        cases hk : u.Key with
        | none => simp [hk] at h
        | some key =>
          refine ⟨rfl, ?_⟩
          intro hkey
          cases hv : u.Value with
          | none =>
            simp [hk, hv] at h
            simp_all
          | some _ => rfl

/-- The loop over the attachments ends without a panic only when every instance identifier is
set. -/
theorem attachmentLoop_some (atts : List ec2.VolumeAttachment) (ids : List String)
    (h : attachmentLoop atts = some ids) : ∀ att ∈ atts, att.InstanceId.isSome = true := by
  induction atts using List.reverseRecOn generalizing ids with
  | nil => simp
  | append_singleton atts att ih =>
    simp [attachmentLoop, List.foldlM_append] at h
    obtain ⟨prev, hprev, h⟩ := Option.bind_eq_some.mp h
    have ih' := ih prev (by simpa [attachmentLoop] using hprev)
    · intro u hu
      rcases List.mem_append.mp hu with hu | hu
      · exact ih' u hu
      · simp only [List.mem_singleton] at hu
        subst hu
        cases hk : u.InstanceId with
        | none => simp [hk] at h
        | some key => rfl

/-- A record is built only for a volume whose dereferenced fields are all set. -/
theorem volumeRecord_some_populated (v : ec2.Volume) (r : NanosVolume)
    (h : volumeRecord v = some r) : populated v = true := by
  unfold volumeRecord at h
  cases ht : tagLoop v.Tags with
  | none => simp [ht] at h
  | some name =>
    cases ha : attachmentLoop v.Attachments with
    | none => simp [ht, ha] at h
    | some ids =>
      cases hid : v.VolumeId with
      | none => simp [ht, ha, hid] at h
      | some id =>
        cases hs : v.State with
        | none => simp [ht, ha, hid, hs] at h
        | some st =>
          cases hz : v.Size with
          | none => simp [ht, ha, hid, hs, hz] at h
          | some sz =>
            cases hc : v.CreateTime with
            | none => simp [ht, ha, hid, hs, hz, hc] at h
            | some ct =>
              simp only [populated, hid, hs, hz, hc, Option.isSome_some, Bool.and_true,
                Bool.true_and, Bool.and_eq_true, List.all_eq_true, Bool.or_eq_true, bne_iff_ne,
                ne_eq]
              refine ⟨fun t htm => ?_, attachmentLoop_some _ _ ha⟩
              obtain ⟨h1, h2⟩ := tagLoop_some _ _ ht t htm
              refine ⟨h1, ?_⟩
              by_cases hk : t.Key = some "Name"
              · exact Or.inr (h2 hk)
              · exact Or.inl hk

/-- The loop over the volumes, started with the records `init`: when every volume's dereferenced
fields are set it appends one record per volume, in order. -/
theorem volumeLoop_from (vs : List ec2.Volume) (hp : ∀ v ∈ vs, populated v = true) :
    ∀ init : List NanosVolume, ∃ rs,
      vs.foldlM (fun vols volume => do
        let vol ← volumeRecord volume
        pure (vols ++ [vol])) init = some (init ++ rs) ∧
      List.Forall₂ (fun v r => volumeRecord v = some r) vs rs := by
  induction vs with
  | nil => intro init; exact ⟨[], by simp, List.Forall₂.nil⟩
  | cons v vs ih =>
    intro init
    obtain ⟨r, hr, -⟩ := volumeRecord_spec v (hp v (by simp))
    obtain ⟨rs, hrs, hall⟩ := ih (fun u hu => hp u (by simp [hu])) (init ++ [r])
    refine ⟨r :: rs, ?_, List.Forall₂.cons hr hall⟩
    simp [hr] at hrs ⊢
    exact hrs

/-- Related lists are related position by position. -/
theorem forall₂_getElem? {α β : Type} {R : α → β → Prop} {l₁ : List α} {l₂ : List β}
    (h : List.Forall₂ R l₁ l₂) :
    ∀ (i : Nat) (x : α) (y : β), l₁[i]? = some x → l₂[i]? = some y → R x y := by
  induction h with
  | nil => intro i x y hx; simp at hx
  | cons hab _ ih =>
    intro i x y hx hy
    cases i with
    | zero =>
      simp at hx hy
      subst hx hy
      exact hab
    | succ i =>
      simp at hx hy
      exact ih i x y hx hy

/-- The result of `GetAllVolumes` when the handle is obtained and `DescribeVolumes` answers
volumes whose dereferenced fields are all set: no error, and one record per volume, in order. -/
theorem GetAllVolumes_ret (a : AWS) (config : Config) (compute : ec2.EC2)
    (out : ec2.DescribeVolumesOutput) (h1 : a.getEc2Service config = .ok compute)
    (h2 : compute.DescribeVolumes {} = .ok out) (hp : ∀ v ∈ out.Volumes, populated v = true) :
    ∃ rs, (GetAllVolumes a config).ret = some (some rs, none) ∧
      List.Forall₂ (fun v r => volumeRecord v = some r) out.Volumes rs := by
  obtain ⟨rs, hrs, hall⟩ := volumeLoop_from out.Volumes hp []
  refine ⟨rs, ?_, hall⟩
  have hloop : volumeLoop out.Volumes = some rs := by simpa [volumeLoop] using hrs
  simp [GetAllVolumes, h1, h2, hloop]

/-- The hypothesis on the response cannot be dropped: a volume whose `VolumeId` is nil makes
`GetAllVolumes` dereference a nil pointer. -/
theorem GetAllVolumes_unset_field_panics :
    (GetAllVolumes (listingAWS [{ bareVolume with VolumeId := none }]) demoConfig).ret = none := by
  decide

/-- C5: when the handle is obtained and `DescribeVolumes` answers volumes whose dereferenced
fields are set, `GetAllVolumes` returns no error and one record per volume, and the `Name` of the
record of a volume is the value of the last of its tags whose key is exactly `Name`, the empty
string when it has no such tag; so it depends on the tags with key `Name` only. -/
theorem GetAllVolumes_name (a : AWS) (config : Config) (compute : ec2.EC2)
    (out : ec2.DescribeVolumesOutput) (h1 : a.getEc2Service config = .ok compute)
    (h2 : compute.DescribeVolumes {} = .ok out) (hp : ∀ v ∈ out.Volumes, populated v = true) :
    ∃ rs, (GetAllVolumes a config).ret = some (some rs, none) ∧
      rs.length = out.Volumes.length ∧
      ∀ (i : Nat) (v : ec2.Volume) (r : NanosVolume), out.Volumes[i]? = some v → rs[i]? = some r →
        ((∀ t ∈ v.Tags, t.Key ≠ some "Name") → r.Name = "") ∧
        (∀ t : ec2.Tag, (v.Tags.filter isNameTag).getLast? = some t →
          t.Key = some "Name" ∧ t ∈ v.Tags ∧ t.Value = some r.Name) ∧
        (∀ (j : Nat) (v2 : ec2.Volume) (r2 : NanosVolume),
          out.Volumes[j]? = some v2 → rs[j]? = some r2 →
          v.Tags.filter isNameTag = v2.Tags.filter isNameTag → r.Name = r2.Name) := by
  obtain ⟨rs, hret, hall⟩ := GetAllVolumes_ret a config compute out h1 h2 hp
  refine ⟨rs, hret, hall.length_eq.symm, ?_⟩
  intro i v r hv hr
  have hrec := forall₂_getElem? hall i v r hv hr
  obtain ⟨r', hr', -, -, -, hnone, hsome, -⟩ :=
    volumeRecord_spec v (hp v (List.getElem?_mem hv))
  obtain rfl : r' = r := Option.some.inj (hr'.symm.trans hrec)
  refine ⟨?_, ?_, ?_⟩
  · intro hno
    apply hnone
    rw [List.getLast?_eq_none_iff, List.filter_eq_nil_iff]
    intro t ht
    simpa [isNameTag] using hno t ht
  · intro t ht
    have hmem : t ∈ v.Tags.filter isNameTag := List.mem_of_getLast?_eq_some ht
    rw [List.mem_filter] at hmem
    exact ⟨by simpa [isNameTag] using hmem.2, hmem.1, hsome t ht⟩
  · intro j v2 r2 hv2 hr2 heq
    have hrec2 := forall₂_getElem? hall j v2 r2 hv2 hr2
    obtain ⟨r2', hr2', -, -, -, hnone2, hsome2, -⟩ :=
      volumeRecord_spec v2 (hp v2 (List.getElem?_mem hv2))
    obtain rfl : r2' = r2 := Option.some.inj (hr2'.symm.trans hrec2)
    cases hlast : (v.Tags.filter isNameTag).getLast? with
    | none => rw [hnone hlast, hnone2 (heq ▸ hlast)]
    | some t =>
      have e1 := hsome t hlast
      have e2 := hsome2 t (heq ▸ hlast)
      exact Option.some.inj (e1.symm.trans e2)

/-- Witness of C5: the volume with the tags `Name = db1` and `env = prod` is listed under the
name `db1`, the volume without tags under the empty name. -/
theorem GetAllVolumes_name_witness :
    (∃ rs, (GetAllVolumes (listingAWS [demoVolume, bareVolume]) demoConfig).ret =
        some (some rs, none) ∧
      rs.length = 2 ∧
      ∀ (i : Nat) (v : ec2.Volume) (r : NanosVolume),
        [demoVolume, bareVolume][i]? = some v → rs[i]? = some r →
        ((∀ t ∈ v.Tags, t.Key ≠ some "Name") → r.Name = "") ∧
        (∀ t : ec2.Tag, (v.Tags.filter isNameTag).getLast? = some t →
          t.Key = some "Name" ∧ t ∈ v.Tags ∧ t.Value = some r.Name) ∧
        (∀ (j : Nat) (v2 : ec2.Volume) (r2 : NanosVolume),
          [demoVolume, bareVolume][j]? = some v2 → rs[j]? = some r2 →
          v.Tags.filter isNameTag = v2.Tags.filter isNameTag → r.Name = r2.Name)) ∧
      (GetAllVolumes (listingAWS [demoVolume, bareVolume]) demoConfig).ret.map
        (fun p => p.1.map (List.map NanosVolume.Name)) = some (some ["db1", ""]) :=
  ⟨GetAllVolumes_name (listingAWS [demoVolume, bareVolume]) demoConfig _
      ⟨[demoVolume, bareVolume]⟩ rfl rfl (by decide),
    by decide⟩

/-- C6: when the handle is obtained and `DescribeVolumes` answers volumes whose dereferenced
fields are set, the `AttachedTo` field of the record of a volume is the instance identifiers of
all its attachments, in the provider's order, joined with `;` (the empty string for a volume
without attachments). -/
theorem GetAllVolumes_attachedTo (a : AWS) (config : Config) (compute : ec2.EC2)
    (out : ec2.DescribeVolumesOutput) (h1 : a.getEc2Service config = .ok compute)
    (h2 : compute.DescribeVolumes {} = .ok out) (hp : ∀ v ∈ out.Volumes, populated v = true) :
    ∃ rs, (GetAllVolumes a config).ret = some (some rs, none) ∧
      rs.length = out.Volumes.length ∧
      ∀ (i : Nat) (v : ec2.Volume) (r : NanosVolume),
        out.Volumes[i]? = some v → rs[i]? = some r →
          (∃ ids : List String,
            v.Attachments.map (fun att => att.InstanceId) = ids.map some ∧
              r.AttachedTo = ";".intercalate ids) ∧
          (v.Attachments = [] → r.AttachedTo = "") := by
  obtain ⟨rs, hret, hall⟩ := GetAllVolumes_ret a config compute out h1 h2 hp
  refine ⟨rs, hret, hall.length_eq.symm, ?_⟩
  intro i v r hv hr
  have hrec := forall₂_getElem? hall i v r hv hr
  obtain ⟨r', hr', -, -, -, -, -, ids, hmap, hjoin⟩ :=
    volumeRecord_spec v (hp v (List.getElem?_mem hv))
  obtain rfl : r' = r := Option.some.inj (hr'.symm.trans hrec)
  refine ⟨⟨ids, hmap, hjoin⟩, ?_⟩
  intro hnil
  rw [hnil] at hmap
  have : ids = [] := by simpa using hmap.symm
  rw [hjoin, this]
  rfl

/-- Witness of C6: the volume attached to `i-aaa` and `i-bbb`, in this order, is listed with
`AttachedTo` equal to `i-aaa;i-bbb`. -/
theorem GetAllVolumes_attachedTo_witness :
    (∃ rs, (GetAllVolumes (listingAWS [demoVolume, bareVolume]) demoConfig).ret =
        some (some rs, none) ∧
      rs.length = 2 ∧
      ∀ (i : Nat) (v : ec2.Volume) (r : NanosVolume),
        [demoVolume, bareVolume][i]? = some v → rs[i]? = some r →
          (∃ ids : List String,
            v.Attachments.map (fun att => att.InstanceId) = ids.map some ∧
              r.AttachedTo = ";".intercalate ids) ∧
          (v.Attachments = [] → r.AttachedTo = "")) ∧
      (GetAllVolumes (listingAWS [demoVolume, bareVolume]) demoConfig).ret.map
        (fun p => p.1.map (List.map NanosVolume.AttachedTo)) = some (some ["i-aaa;i-bbb", ""]) :=
  ⟨GetAllVolumes_attachedTo (listingAWS [demoVolume, bareVolume]) demoConfig _
      ⟨[demoVolume, bareVolume]⟩ rfl rfl (by decide),
    by decide⟩

/-- C7 as stated fails: the handle is obtained and `DescribeVolumes` succeeds with one volume,
whose `VolumeId` and `State` are set and whose `Size` is nil; `GetAllVolumes` dereferences the
nil `Size` and panics: it returns neither a nil error nor a sequence of one record. -/
theorem GetAllVolumes_nil_size_counterexample :
    (∃ compute, (listingAWS [sizelessVolume]).getEc2Service demoConfig = .ok compute ∧
        compute.DescribeVolumes {} = .ok ⟨[sizelessVolume]⟩) ∧
      (GetAllVolumes (listingAWS [sizelessVolume]) demoConfig).trace =
        [⟨.getEc2Service demoConfig, none⟩, ⟨.DescribeVolumes {}, none⟩] ∧
      sizelessVolume.VolumeId = some "vol-2" ∧
      sizelessVolume.State = some "available" ∧
      sizelessVolume.Size = none ∧
      (GetAllVolumes (listingAWS [sizelessVolume]) demoConfig).ret = none ∧
      ¬ ∃ rs, (GetAllVolumes (listingAWS [sizelessVolume]) demoConfig).ret =
        some (some rs, none) := by
  refine ⟨⟨_, rfl, rfl⟩, by decide, by decide, by decide, by decide, by decide, ?_⟩
  rintro ⟨rs, h⟩
  have hnone : (GetAllVolumes (listingAWS [sizelessVolume]) demoConfig).ret = none := by decide
  rw [hnone] at h
  cases h

/-- C7, amended: when the handle is obtained and `DescribeVolumes` answers `n` volumes in each
of which every field that the code dereferences is set (`populated`), `GetAllVolumes` returns a
nil error and a non-nil sequence of exactly `n` records, the record at each position having as
`ID` and `Status` the `VolumeId` and `State` of the volume at that position and the empty `Path`;
for no volume at all the sequence is empty. -/
theorem GetAllVolumes_lists_every_volume (a : AWS) (config : Config) (compute : ec2.EC2)
    (out : ec2.DescribeVolumesOutput) (h1 : a.getEc2Service config = .ok compute)
    (h2 : compute.DescribeVolumes {} = .ok out) (hp : ∀ v ∈ out.Volumes, populated v = true) :
    ∃ rs, (GetAllVolumes a config).ret = some (some rs, none) ∧
      rs.length = out.Volumes.length ∧
      (out.Volumes = [] → rs = []) ∧
      ∀ (i : Nat) (v : ec2.Volume) (r : NanosVolume),
        out.Volumes[i]? = some v → rs[i]? = some r →
          v.VolumeId = some r.ID ∧ v.State = some r.Status ∧ r.Path = "" := by
  obtain ⟨rs, hret, hall⟩ := GetAllVolumes_ret a config compute out h1 h2 hp
  refine ⟨rs, hret, hall.length_eq.symm, ?_, ?_⟩
  · intro hnil
    have hlen := hall.length_eq
    rw [hnil] at hlen
    exact List.length_eq_zero.mp hlen.symm
  · intro i v r hv hr
    have hrec := forall₂_getElem? hall i v r hv hr
    obtain ⟨r', hr', hid, hstate, hpath, -⟩ :=
      volumeRecord_spec v (hp v (List.getElem?_mem hv))
    obtain rfl : r' = r := Option.some.inj (hr'.symm.trans hrec)
    exact ⟨hid, hstate, hpath⟩

/-- Witness of C7, amended: an account with the two demo volumes is listed as two records,
`vol-1` then `vol-2`, and an account without volumes as the empty sequence, with no error. -/
theorem GetAllVolumes_lists_every_volume_witness :
    (∃ rs, (GetAllVolumes (listingAWS [demoVolume, bareVolume]) demoConfig).ret =
        some (some rs, none) ∧
      rs.length = 2 ∧
      ([demoVolume, bareVolume] = [] → rs = []) ∧
      ∀ (i : Nat) (v : ec2.Volume) (r : NanosVolume),
        [demoVolume, bareVolume][i]? = some v → rs[i]? = some r →
          v.VolumeId = some r.ID ∧ v.State = some r.Status ∧ r.Path = "") ∧
      (GetAllVolumes (listingAWS [demoVolume, bareVolume]) demoConfig).ret.map
        (fun p => p.1.map (List.map (fun r => (r.ID, r.Status, r.Path)))) =
          some (some [("vol-1", "in-use", ""), ("vol-2", "available", "")]) ∧
      (∃ rs, (GetAllVolumes (listingAWS []) demoConfig).ret = some (some rs, none) ∧
        rs.length = 0 ∧
        (([] : List ec2.Volume) = [] → rs = []) ∧
        ∀ (i : Nat) (v : ec2.Volume) (r : NanosVolume),
          ([] : List ec2.Volume)[i]? = some v → rs[i]? = some r →
            v.VolumeId = some r.ID ∧ v.State = some r.Status ∧ r.Path = "") ∧
      (GetAllVolumes (listingAWS []) demoConfig).ret = some (some [], none) :=
  ⟨GetAllVolumes_lists_every_volume (listingAWS [demoVolume, bareVolume]) demoConfig _
      ⟨[demoVolume, bareVolume]⟩ rfl rfl (by decide),
    by decide,
    GetAllVolumes_lists_every_volume (listingAWS []) demoConfig _ ⟨[]⟩ rfl rfl (by decide),
    by decide⟩

end Lepton
